import Mathlib

/-!
Shallow embedding of `libs/agno/agno/memory/v2/summarizer.py` (the
`SessionSummarizer` component of the agno repository), together with
theorems settling the specification claims about it.

External collaborators (the model provider abstraction, the pydantic
schema generator, the generic text parser, the JSON-output prompt
helper) are embedded at their interface: the model call and the
fallback parser are explicit function parameters of `run` / `arun`,
and purely external constants are abstract strings.
-/

/-- Structured summary record, from the pydantic class
`SessionSummaryResponse` (fields `summary : str`,
`topics : Optional[List[str]]`). -/
structure SessionSummaryResponse where
  summary : String
  topics : Option (List String)
deriving DecidableEq, Repr

/-- Role-tagged conversation message, from `agno.models.message.Message`
at the interface this component uses (role and textual content). -/
structure Message where
  role : String
  content : String
deriving DecidableEq, Repr

/-- The value a model's pre-parsed slot may carry: either an object of
the `SessionSummaryResponse` shape, or some other object (the
`isinstance` check in `run` distinguishes the two). -/
inductive ParsedVal where
  | summaryResp (r : SessionSummaryResponse)
  | otherObj
deriving DecidableEq, Repr

/-- A model response, from the model boundary: raw textual content
(`content : Optional[str]`) and optional pre-parsed object
(`parsed`). -/
structure ModelResponse where
  content : Option String
  parsed : Option ParsedVal
deriving DecidableEq, Repr

/-- Modelled from the spec: the JSON schema that the external pydantic
`SessionSummaryResponse.model_json_schema()` call produces; its exact
text is external to this component, so it is an abstract token. -/
def sessionSummaryResponseJsonSchema : String :=
  "pydantic json schema of SessionSummaryResponse"

/-- The pydantic class name `SessionSummaryResponse.__name__`. -/
def sessionSummaryResponseName : String := "SessionSummaryResponse"

/-- The possible values of a model's `response_format` slot as this
component sets or reads it: unset, the `SessionSummaryResponse` class
itself, the JSON-schema descriptor dict (carrying the name and the
schema), or the generic JSON-object dict. -/
inductive ResponseFormat where
  | unset
  | pydanticModel
  | jsonSchemaFormat (name : String) (schema : String)
  | jsonObject
deriving DecidableEq, Repr

/-- The model handle, from `agno.models.base.Model` at the interface
this component uses: two capability flags and the mutable
`response_format` / `structured_outputs` configuration slots.  The
model call itself is passed to `run` / `arun` as an explicit function,
so that a (deep-)copied, reconfigured handle is what the call
receives. -/
structure Model where
  supports_native_structured_outputs : Bool
  supports_json_schema_outputs : Bool
  response_format : ResponseFormat
  structured_outputs : Bool
deriving DecidableEq, Repr

/-- The argument that Python's untyped `__init__` may receive in the
`model` position: absent, an actual `Model` object, or (erroneously) a
string. -/
inductive ModelArg where
  | noModel
  | someModel (m : Model)
  | strArg (s : String)
deriving DecidableEq, Repr

/-- The `SessionSummarizer` dataclass: optional model handle, optional
system-prompt override, and the `summary_updated` flag. -/
structure SessionSummarizer where
  model : Option Model
  system_prompt : Option String
  summary_updated : Bool
deriving DecidableEq, Repr

/-- `SessionSummarizer.__init__`: stores the model argument, raising
`ValueError` when it is a string; stores the system prompt; the
dataclass default leaves `summary_updated` false. -/
def SessionSummarizer.init (model : ModelArg) (system_prompt : Option String) :
    Except String SessionSummarizer :=
  match model with
  | ModelArg.strArg _ => Except.error "Model must be a Model object, not a string"
  | ModelArg.noModel =>
      Except.ok { model := none, system_prompt := system_prompt, summary_updated := false }
  | ModelArg.someModel m =>
      Except.ok { model := some m, system_prompt := system_prompt, summary_updated := false }

/-- `SessionSummarizer.update_model`: output-format negotiation on a
model handle.  Python mutates the handle in place; the embedding
returns the updated handle. -/
def SessionSummarizer.update_model (model : Model) : Model :=
  if model.supports_native_structured_outputs then
    { model with
      response_format := ResponseFormat.pydanticModel
      structured_outputs := true }
  else if model.supports_json_schema_outputs then
    { model with
      response_format :=
        ResponseFormat.jsonSchemaFormat sessionSummaryResponseName
          sessionSummaryResponseJsonSchema }
  else
    { model with response_format := ResponseFormat.jsonObject }

/-- The dedented default system-prompt header built in
`get_system_message`, ending with the `Conversation:` line. -/
def defaultSystemPromptHeader : String :=
  "Analyze the following conversation between a user and an assistant, and extract the following details:\n  - Summary (str): Provide a concise summary of the session, focusing on important information that would be helpful for future interactions.\n  - Topics (Optional[List[str]]): List the topics discussed in the session.\nPlease ignore any frivolous information.\nConversation:\n"

/-- Modelled from the spec: the text of the external
`get_json_output_prompt(SessionSummaryResponse)` helper (from
`agno.utils.prompts`, not part of this component), appended when the
negotiated format is the generic JSON object. -/
def get_json_output_prompt : String :=
  "machine-readable formatting instructions for the expected JSON shape"

/-- The transcript-rendering loop of `get_system_message`: one
`User: ...` line per user turn, one `Assistant: ...` line per
assistant- or model-role turn, all other roles skipped. -/
def conversationLines : List Message → List String
  | [] => []
  | message :: rest =>
      if message.role = "user" then
        ("User: " ++ message.content) :: conversationLines rest
      else if message.role = "assistant" || message.role = "model" then
        ("Assistant: " ++ message.content) :: conversationLines rest
      else
        conversationLines rest

/-- `SessionSummarizer.get_system_message`: the override prompt
verbatim when configured, otherwise the default header followed by the
rendered transcript, plus the JSON-output instructions when the
model's negotiated format is the generic JSON object. -/
def SessionSummarizer.get_system_message (s : SessionSummarizer)
    (conversation : List Message) (model : Model) : Message :=
  match s.system_prompt with
  | some p => { role := "system", content := p }
  | none =>
      let system_prompt :=
        defaultSystemPromptHeader ++
          String.intercalate "\n" (conversationLines conversation)
      let system_prompt :=
        if model.response_format = ResponseFormat.jsonObject then
          system_prompt ++ "\n" ++ get_json_output_prompt
        else system_prompt
      { role := "system", content := system_prompt }

/-- The two-element message list `run` / `arun` sends to the model:
the system message plus the fixed user message. -/
def SessionSummarizer.messages_for_model (s : SessionSummarizer)
    (conversation : List Message) (model_copy : Model) : List Message :=
  [SessionSummarizer.get_system_message s conversation model_copy,
   { role := "user", content := "Provide the summary of the conversation." }]

/-- The result-extraction tail shared by `run` and `arun`, operating
on the response: the native pre-parsed path first, then the fallback
text parse (whose exceptions are caught), else `none`. -/
def extractResult (parser : String → Except String (Option SessionSummaryResponse))
    (model_copy : Model) (response : ModelResponse) :
    Option SessionSummaryResponse :=
  match response.parsed with
  | some (ParsedVal.summaryResp r) =>
      if model_copy.supports_native_structured_outputs then some r
      else
        match response.content with
        | some text =>
            match parser text with
            | Except.ok (some session_summary) => some session_summary
            | Except.ok none => none
            | Except.error _ => none
        | none => none
  | _ =>
      match response.content with
      | some text =>
          match parser text with
          | Except.ok (some session_summary) => some session_summary
          | Except.ok none => none
          | Except.error _ => none
      | none => none

/-- `SessionSummarizer.run`: the synchronous entry point.  `respond`
is the model boundary (`model_copy.response(messages=...)`) and
`parser` the external fallback parser `parse_response_model_str`,
where `Except.error` models the parser raising.  Returns the optional
summary and the post-call summarizer state. -/
def SessionSummarizer.run
    (respond : Model → List Message → ModelResponse)
    (parser : String → Except String (Option SessionSummaryResponse))
    (s : SessionSummarizer) (conversation : List Message) :
    Option SessionSummaryResponse × SessionSummarizer :=
  match s.model with
  | none => (none, s)
  | some model =>
      if conversation.length = 0 then (none, s)
      else
        let model_copy := SessionSummarizer.update_model model
        let messages_for_model :=
          SessionSummarizer.messages_for_model s conversation model_copy
        let response := respond model_copy messages_for_model
        let s' :=
          if response.content.isSome then { s with summary_updated := true } else s
        (extractResult parser model_copy response, s')

/-- `SessionSummarizer.arun`: the suspending entry point, whose body
duplicates `run` line for line, with `arespond` standing for the
awaited `model_copy.aresponse(messages=...)` call. -/
def SessionSummarizer.arun
    (arespond : Model → List Message → ModelResponse)
    (parser : String → Except String (Option SessionSummaryResponse))
    (s : SessionSummarizer) (conversation : List Message) :
    Option SessionSummaryResponse × SessionSummarizer :=
  match s.model with
  | none => (none, s)
  | some model =>
      if conversation.length = 0 then (none, s)
      else
        let model_copy := SessionSummarizer.update_model model
        let messages_for_model :=
          SessionSummarizer.messages_for_model s conversation model_copy
        let response := arespond model_copy messages_for_model
        let s' :=
          if response.content.isSome then { s with summary_updated := true } else s
        (extractResult parser model_copy response, s')

/-! ## Spec-side definitions and concrete fixtures -/

/-- Modelled from the spec: output-format negotiation as the spec words
it — three strategies selected in priority order on the two capability
flags: native structured outputs first, then JSON-schema outputs, then
the generic JSON-object declaration. -/
def negotiateOutputFormatSpec (m : Model) : Model :=
  match m.supports_native_structured_outputs, m.supports_json_schema_outputs with
  | true, _ =>
      { m with
        response_format := ResponseFormat.pydanticModel
        structured_outputs := true }
  | false, true =>
      { m with
        response_format :=
          ResponseFormat.jsonSchemaFormat sessionSummaryResponseName
            sessionSummaryResponseJsonSchema }
  | false, false => { m with response_format := ResponseFormat.jsonObject }

/-- Modelled from the spec: the per-turn transcript rendering the spec
describes — a `User: <content>` line for a user turn, an
`Assistant: <content>` line for an assistant- or model-role turn,
nothing for any other role. -/
def renderTurnSpec (message : Message) : Option String :=
  if message.role = "user" then some ("User: " ++ message.content)
  else if message.role = "assistant" || message.role = "model" then
    some ("Assistant: " ++ message.content)
  else none

/-- A model with no structured-output capability and no pre-set
response format. -/
def plainModel : Model :=
  { supports_native_structured_outputs := false
    supports_json_schema_outputs := false
    response_format := ResponseFormat.unset
    structured_outputs := false }

/-- A model declaring native structured-output support. -/
def nativeModel : Model :=
  { supports_native_structured_outputs := true
    supports_json_schema_outputs := false
    response_format := ResponseFormat.unset
    structured_outputs := false }

/-- A one-turn conversation. -/
def userHiConversation : List Message := [{ role := "user", content := "hi" }]

/-- A freshly constructed summarizer over `plainModel`. -/
def freshSummarizer : SessionSummarizer :=
  { model := some plainModel, system_prompt := none, summary_updated := false }

/-- A freshly constructed summarizer over `nativeModel`. -/
def nativeSummarizer : SessionSummarizer :=
  { model := some nativeModel, system_prompt := none, summary_updated := false }

/-- A model boundary that answers with empty-string content and no
pre-parsed object. -/
def emptyContentRespond : Model → List Message → ModelResponse :=
  fun _ _ => { content := some "", parsed := none }

/-- A model boundary that answers with unparseable text content and a
pre-parsed `SessionSummaryResponse` object. -/
def preparsedRespond : Model → List Message → ModelResponse :=
  fun _ _ =>
    { content := some "garbage"
      parsed := some (ParsedVal.summaryResp { summary := "s", topics := none }) }

/-- A model boundary that answers with unparseable text content and no
pre-parsed object. -/
def garbageRespond : Model → List Message → ModelResponse :=
  fun _ _ => { content := some "garbage", parsed := none }

/-- A fallback parser that returns nothing on every input. -/
def noneParser : String → Except String (Option SessionSummaryResponse) :=
  fun _ => Except.ok none

/-- A fallback parser that raises on every input. -/
def raisingParser : String → Except String (Option SessionSummaryResponse) :=
  fun _ => Except.error "boom"

/-! ## Helper lemmas -/

/-- Output-format negotiation only writes the `response_format` and
`structured_outputs` slots: the capability flags are untouched. -/
theorem update_model_preserves_flags (m : Model) :
    (SessionSummarizer.update_model m).supports_native_structured_outputs
        = m.supports_native_structured_outputs
    ∧ (SessionSummarizer.update_model m).supports_json_schema_outputs
        = m.supports_json_schema_outputs := by
  unfold SessionSummarizer.update_model
  split
  · exact ⟨rfl, rfl⟩
  · split
    · exact ⟨rfl, rfl⟩
    · exact ⟨rfl, rfl⟩

/-! ## Claim theorems -/

/-- C3: for every summarizer and every empty conversation input,
`run` and `arun` return `none` with the summarizer unchanged, and the
result does not depend on the model boundary (the universally
quantified `respond` / `arespond` are never applied), i.e. no model
call is performed. -/
theorem run_empty_conversation
    (respond arespond : Model → List Message → ModelResponse)
    (parser : String → Except String (Option SessionSummaryResponse))
    (s : SessionSummarizer) :
    SessionSummarizer.run respond parser s [] = (none, s)
    ∧ SessionSummarizer.arun arespond parser s [] = (none, s) := by
  unfold SessionSummarizer.run SessionSummarizer.arun
  cases s.model with
  | none => exact ⟨rfl, rfl⟩
  | some m => exact ⟨rfl, rfl⟩

/-- C4: for every summarizer with no configured model and every
conversation, `run` and `arun` return `none` without error with the
summarizer unchanged, and the result does not depend on the model
boundary, i.e. no model call is performed. -/
theorem run_no_model
    (respond arespond : Model → List Message → ModelResponse)
    (parser : String → Except String (Option SessionSummaryResponse))
    (sp : Option String) (su : Bool) (conversation : List Message) :
    SessionSummarizer.run respond parser
        { model := none, system_prompt := sp, summary_updated := su } conversation
      = (none, { model := none, system_prompt := sp, summary_updated := su })
    ∧ SessionSummarizer.arun arespond parser
        { model := none, system_prompt := sp, summary_updated := su } conversation
      = (none, { model := none, system_prompt := sp, summary_updated := su }) :=
  ⟨rfl, rfl⟩

/-- C6: `update_model` selects exactly one of three strategies in
priority order — native structured outputs (schema class +
structured-output mode), then JSON-schema descriptor (built from the
`SessionSummaryResponse` name and schema), then the generic
JSON-object declaration — as captured by the spec-side
`negotiateOutputFormatSpec`. -/
theorem update_model_negotiation (m : Model) :
    SessionSummarizer.update_model m = negotiateOutputFormatSpec m := by
  unfold SessionSummarizer.update_model negotiateOutputFormatSpec
  cases hn : m.supports_native_structured_outputs with
  | true => simp
  | false =>
      cases hj : m.supports_json_schema_outputs with
      | true => simp
      | false => simp

/-- C7: the transcript rendered into the default system message has
exactly one line per user turn (`User: <content>`) and per
assistant/model turn (`Assistant: <content>`) in the original order,
other roles omitted (first conjunct, via the spec-side per-turn
renderer); in particular the conversation
`[{user, hi}, {assistant, hello}, {system, ignored}]` renders exactly
the lines `User: hi` and `Assistant: hello`, and the default system
message embeds exactly those two lines after the header (remaining
conjuncts). -/
theorem transcript_rendering :
    (∀ conversation : List Message,
        conversationLines conversation = conversation.filterMap renderTurnSpec)
    ∧ conversationLines
        [{ role := "user", content := "hi" },
         { role := "assistant", content := "hello" },
         { role := "system", content := "ignored" }]
        = ["User: hi", "Assistant: hello"]
    ∧ (SessionSummarizer.get_system_message
          { model := none, system_prompt := none, summary_updated := false }
          [{ role := "user", content := "hi" },
           { role := "assistant", content := "hello" },
           { role := "system", content := "ignored" }]
          plainModel).content
        = defaultSystemPromptHeader ++ "User: hi\nAssistant: hello" := by
  refine ⟨?_, rfl, rfl⟩
  intro conversation
  induction conversation with
  | nil => rfl
  | cons message rest ih =>
      by_cases hu : message.role = "user"
      · simp [conversationLines, renderTurnSpec, hu, List.filterMap_cons, ih]
      · by_cases ha : message.role = "assistant"
        · simp [conversationLines, renderTurnSpec, hu, ha, List.filterMap_cons, ih]
        · by_cases hm : message.role = "model"
          · simp [conversationLines, renderTurnSpec, hu, ha, hm, List.filterMap_cons, ih]
          · simp [conversationLines, renderTurnSpec, hu, ha, hm, List.filterMap_cons, ih]

/-- C8: an invocation of `run` or `arun` leaves the summarizer's
`model` and `system_prompt` fields unchanged — output-format
negotiation happens on the copied working handle only, so
`summary_updated` is the only field an invocation may mutate. -/
theorem run_preserves_configuration
    (respond arespond : Model → List Message → ModelResponse)
    (parser : String → Except String (Option SessionSummaryResponse))
    (s : SessionSummarizer) (conversation : List Message) :
    ((SessionSummarizer.run respond parser s conversation).2.model = s.model
      ∧ (SessionSummarizer.run respond parser s conversation).2.system_prompt
          = s.system_prompt)
    ∧ ((SessionSummarizer.arun arespond parser s conversation).2.model = s.model
      ∧ (SessionSummarizer.arun arespond parser s conversation).2.system_prompt
          = s.system_prompt) := by
  obtain ⟨mo, sp, su⟩ := s
  cases mo with
  | none => exact ⟨⟨rfl, rfl⟩, ⟨rfl, rfl⟩⟩
  | some m =>
      unfold SessionSummarizer.run SessionSummarizer.arun
      by_cases hc : conversation.length = 0
      · simp [hc]
      · simp only [hc, if_false]
        refine ⟨⟨?_, ?_⟩, ?_, ?_⟩ <;> (split <;> rfl)

/-- C10: constructing a `SessionSummarizer` with a string in the model
position raises `ValueError`; for any non-string model argument
(including absent) construction succeeds with `summary_updated`
initially false. -/
theorem init_model_validation (arg : ModelArg) (sp : Option String) :
    match arg with
    | ModelArg.strArg _ =>
        SessionSummarizer.init arg sp
          = Except.error "Model must be a Model object, not a string"
    | ModelArg.noModel =>
        SessionSummarizer.init arg sp
          = Except.ok { model := none, system_prompt := sp, summary_updated := false }
    | ModelArg.someModel m =>
        SessionSummarizer.init arg sp
          = Except.ok { model := some m, system_prompt := sp, summary_updated := false } := by
  cases arg <;> rfl

/-- C1 (counterexample): the claim that `summary_updated` is set only
on non-empty content is false — on a response whose raw content is the
empty string (and whose parsing yields nothing), a run that reaches
the model call still sets `summary_updated` to true, because the code
checks `content is not None`, not non-emptiness. -/
theorem summary_updated_empty_content_cex :
    (∀ m msgs, (emptyContentRespond m msgs).content = some "")
    ∧ (SessionSummarizer.run emptyContentRespond noneParser
          freshSummarizer userHiConversation).2.summary_updated = true
    ∧ (SessionSummarizer.arun emptyContentRespond noneParser
          freshSummarizer userHiConversation).2.summary_updated = true :=
  ⟨fun _ _ => rfl, rfl, rfl⟩

/-- C1 (amended): for every invocation of `run` or `arun` that reaches
the model call, the resulting `summary_updated` flag equals the old
flag or-ed with whether the respective model response's raw content is
*present* (not absent) — including when it is the empty string —
regardless of whether the subsequent structured parsing succeeds (the
conclusion does not depend on `parser`). -/
theorem run_summary_updated_eq
    (respond arespond : Model → List Message → ModelResponse)
    (parser : String → Except String (Option SessionSummaryResponse))
    (s : SessionSummarizer) (conversation : List Message) (m : Model)
    (hm : s.model = some m) (hc : conversation.length ≠ 0) :
    (SessionSummarizer.run respond parser s conversation).2.summary_updated
      = (s.summary_updated ||
          (respond (SessionSummarizer.update_model m)
              (SessionSummarizer.messages_for_model s conversation
                (SessionSummarizer.update_model m))).content.isSome)
    ∧ (SessionSummarizer.arun arespond parser s conversation).2.summary_updated
      = (s.summary_updated ||
          (arespond (SessionSummarizer.update_model m)
              (SessionSummarizer.messages_for_model s conversation
                (SessionSummarizer.update_model m))).content.isSome) := by
  constructor
  · unfold SessionSummarizer.run
    simp only [hm]
    rw [if_neg hc]
    cases hco :
        (respond (SessionSummarizer.update_model m)
          (SessionSummarizer.messages_for_model s conversation
            (SessionSummarizer.update_model m))).content with
    | none => simp [hco]
    | some text => simp [hco]
  · unfold SessionSummarizer.arun
    simp only [hm]
    rw [if_neg hc]
    cases hco :
        (arespond (SessionSummarizer.update_model m)
          (SessionSummarizer.messages_for_model s conversation
            (SessionSummarizer.update_model m))).content with
    | none => simp [hco]
    | some text => simp [hco]

/-- C1 (witness for the amended theorem). -/
theorem run_summary_updated_eq_witness :
    ((SessionSummarizer.run emptyContentRespond noneParser
        freshSummarizer userHiConversation).2.summary_updated
      = (freshSummarizer.summary_updated ||
          (emptyContentRespond (SessionSummarizer.update_model plainModel)
              (SessionSummarizer.messages_for_model freshSummarizer userHiConversation
                (SessionSummarizer.update_model plainModel))).content.isSome))
    ∧ ((SessionSummarizer.arun emptyContentRespond noneParser
        freshSummarizer userHiConversation).2.summary_updated
      = (freshSummarizer.summary_updated ||
          (emptyContentRespond (SessionSummarizer.update_model plainModel)
              (SessionSummarizer.messages_for_model freshSummarizer userHiConversation
                (SessionSummarizer.update_model plainModel))).content.isSome)) :=
  run_summary_updated_eq emptyContentRespond emptyContentRespond noneParser
    freshSummarizer userHiConversation plainModel rfl (by decide)

/-- C2: when the model declares native structured-output support and
its response carries a pre-parsed object of the
`SessionSummaryResponse` shape, `run` returns exactly that object; the
conclusion holds for every `parser`, so no fallback text parsing
contributes to the result. -/
theorem run_native_preparsed
    (respond : Model → List Message → ModelResponse)
    (parser : String → Except String (Option SessionSummaryResponse))
    (s : SessionSummarizer) (conversation : List Message) (m : Model)
    (r : SessionSummaryResponse)
    (hm : s.model = some m) (hc : conversation.length ≠ 0)
    (hnative : m.supports_native_structured_outputs = true)
    (hparsed :
      (respond (SessionSummarizer.update_model m)
          (SessionSummarizer.messages_for_model s conversation
            (SessionSummarizer.update_model m))).parsed
        = some (ParsedVal.summaryResp r)) :
    (SessionSummarizer.run respond parser s conversation).1 = some r := by
  unfold SessionSummarizer.run
  simp only [hm]
  rw [if_neg hc]
  show extractResult parser (SessionSummarizer.update_model m) _ = some r
  unfold extractResult
  rw [hparsed]
  rw [(update_model_preserves_flags m).1, hnative]
  rfl

/-- C2 (witness). -/
theorem run_native_preparsed_witness :
    (SessionSummarizer.run preparsedRespond noneParser
        nativeSummarizer userHiConversation).1
      = some { summary := "s", topics := none } :=
  run_native_preparsed preparsedRespond noneParser nativeSummarizer
    userHiConversation nativeModel { summary := "s", topics := none }
    rfl (by decide) rfl rfl

/-- C5 (counterexample): the claim that `run` returns absent whenever
the response's raw text fails to parse is false — with a model that
supports native structured outputs and a response carrying both a
pre-parsed `SessionSummaryResponse` and raw text on which the parser
raises, `run` returns the pre-parsed object, not absent. -/
theorem run_parse_failure_cex :
    raisingParser "garbage" = Except.error "boom"
    ∧ (preparsedRespond (SessionSummarizer.update_model nativeModel)
          (SessionSummarizer.messages_for_model nativeSummarizer userHiConversation
            (SessionSummarizer.update_model nativeModel))).content = some "garbage"
    ∧ (SessionSummarizer.run preparsedRespond raisingParser
          nativeSummarizer userHiConversation).1
        = some { summary := "s", topics := none } :=
  ⟨rfl, rfl, rfl⟩

/-- C5 (amended): when the response's raw text fails to parse (the
fallback parser returns nothing or raises) and the native pre-parsed
path does not apply (the model lacks native structured-output support,
or the response carries no pre-parsed `SessionSummaryResponse`),
`run` returns absent; the parser's raising is modelled as an
`Except.error` value, which `run` absorbs (no exception escapes). -/
theorem run_parse_failure_returns_none
    (respond : Model → List Message → ModelResponse)
    (parser : String → Except String (Option SessionSummaryResponse))
    (s : SessionSummarizer) (conversation : List Message) (m : Model)
    (text : String)
    (hm : s.model = some m) (hc : conversation.length ≠ 0)
    (hcontent :
      (respond (SessionSummarizer.update_model m)
          (SessionSummarizer.messages_for_model s conversation
            (SessionSummarizer.update_model m))).content = some text)
    (hnopre : m.supports_native_structured_outputs = false ∨
      (∀ r, (respond (SessionSummarizer.update_model m)
          (SessionSummarizer.messages_for_model s conversation
            (SessionSummarizer.update_model m))).parsed
        ≠ some (ParsedVal.summaryResp r)))
    (hfail : parser text = Except.ok none ∨ ∃ e, parser text = Except.error e) :
    (SessionSummarizer.run respond parser s conversation).1 = none := by
  unfold SessionSummarizer.run
  simp only [hm]
  rw [if_neg hc]
  show extractResult parser (SessionSummarizer.update_model m) _ = none
  unfold extractResult
  cases hp :
      (respond (SessionSummarizer.update_model m)
        (SessionSummarizer.messages_for_model s conversation
          (SessionSummarizer.update_model m))).parsed with
  | none =>
      rcases hfail with hf | ⟨e, hf⟩ <;> simp [hcontent, hf]
  | some pv =>
      cases pv with
      | otherObj =>
          rcases hfail with hf | ⟨e, hf⟩ <;> simp [hcontent, hf]
      | summaryResp r =>
          rcases hnopre with hn | hn
          · rcases hfail with hf | ⟨e, hf⟩ <;>
              simp [(update_model_preserves_flags m).1, hn, hcontent, hf]
          · exact absurd hp (hn r)

/-- C5 (witness for the amended theorem). -/
theorem run_parse_failure_returns_none_witness :
    (SessionSummarizer.run garbageRespond raisingParser
        freshSummarizer userHiConversation).1 = none :=
  run_parse_failure_returns_none garbageRespond raisingParser freshSummarizer
    userHiConversation plainModel "garbage" rfl (by decide) rfl
    (Or.inl rfl) (Or.inr ⟨"boom", rfl⟩)

/-- C9: `run` and `arun` are behaviorally identical: whenever the
synchronous and asynchronous model calls yield the same response on
every (configured model, message sequence) input, both entry points
return the same result and leave the summarizer in the same state;
both construct the message sequence by the same
`messages_for_model`. -/
theorem run_arun_equiv
    (respond arespond : Model → List Message → ModelResponse)
    (parser : String → Except String (Option SessionSummaryResponse))
    (s : SessionSummarizer) (conversation : List Message)
    (h : ∀ m msgs, respond m msgs = arespond m msgs) :
    SessionSummarizer.run respond parser s conversation
      = SessionSummarizer.arun arespond parser s conversation := by
  unfold SessionSummarizer.run SessionSummarizer.arun
  cases s.model with
  | none => rfl
  | some m => simp only [h]

/-- C9 (witness). -/
theorem run_arun_equiv_witness :
    SessionSummarizer.run garbageRespond raisingParser
        nativeSummarizer userHiConversation
      = SessionSummarizer.arun garbageRespond raisingParser
          nativeSummarizer userHiConversation :=
  run_arun_equiv garbageRespond garbageRespond raisingParser nativeSummarizer
    userHiConversation (fun _ _ => rfl)
